import Mathlib

/-!
# polyhedra_signer: finality gate in front of a signing oracle

A shallow embedding of `src/polyhedra_signer/signer.go`.

* Go pointers and slices that may be nil are `Option` values (`none` is nil).
* `*big.Int` values are `Int`; `(*big.Int).Uint64` keeps the low 64 bits of the
  magnitude, as `math/big` implements it.
* The chain RPC client, the key generator and the signing primitive are
  collaborators outside the file; one `Env` record carries what each of them
  answers, so every theorem quantifies over all collaborators.
* A Go call either returns its three results or aborts on a nil dereference:
  `Outcome.returned` and `Outcome.panicked`.
* Every call records the collaborator requests it makes, in order, and the
  signer value it leaves behind.
-/

namespace Polyhedra

/-! ## Data model -/

/-- One octet. -/
abbrev Byte := Fin 256

/-- Go `[]byte`: `none` is the nil slice. -/
abbrev ByteSlice := Option (List Byte)

/-- Go `common.Hash`, an array of exactly 32 bytes. -/
abbrev Hash := { l : List Byte // l.length = 32 }

/-- Go `common.Hash.Bytes`: the 32 bytes as a slice. -/
def Hash.Bytes (h : Hash) : List Byte := h.val

/-- Go `const SAFE_BLOCK_NUM = -4`. -/
def SAFE_BLOCK_NUM : Int := -4

/-- Go `(*big.Int).Uint64` on a non-nil receiver: the low 64 bits of the
absolute value (`low64(x.abs)`); the sign is dropped. -/
def Uint64 (x : Int) : Nat := x.natAbs % 2 ^ 64

/-- Go `types.Receipt`, reduced to the one field the signer reads;
`BlockNumber` is a `*big.Int` and may be nil. -/
structure Receipt where
  BlockNumber : Option Int
  deriving DecidableEq, Repr

/-- Go `types.Header`, reduced to the block number. -/
structure Header where
  Number : Int
  deriving DecidableEq, Repr

/-- Go `types.Block`. -/
structure Block where
  header : Header
  deriving DecidableEq, Repr

/-- Go `(*types.Block).Number` on a non-nil receiver: a copy of the header number. -/
def Block.Number (b : Block) : Int := b.header.Number

/-- Go `ecdsa.PublicKey` (curve point). -/
structure ECDSAPublicKey where
  X : Int
  Y : Int
  deriving DecidableEq, Repr

/-- Go `ecdsa.PrivateKey`: the embedded public key and the secret scalar. -/
structure PrivateKey where
  PublicKey : ECDSAPublicKey
  D : Int
  deriving DecidableEq, Repr

/-- Go `crypto.PublicKey`, an empty interface: the dynamic type is an ECDSA
public key or something else. -/
inductive CryptoPublicKey where
  | ecdsa (k : ECDSAPublicKey)
  | other
  deriving DecidableEq, Repr

/-- Go `(*ecdsa.PrivateKey).Public`. -/
def PrivateKey.Public (k : PrivateKey) : CryptoPublicKey := CryptoPublicKey.ecdsa k.PublicKey

/-- Go `*ethclient.Client`: the handle obtained by dialing an endpoint. -/
structure Client where
  rawurl : String
  deriving DecidableEq, Repr

/-- Go `error` values the signer can hand back: an error value received from a
collaborator, passed on as it is, or a value freshly made by `errors.New`,
which carries only its text and wraps nothing. -/
inductive GoError (ε : Type) where
  | collaborator (e : ε)
  | errorsNew (text : String)
  deriving DecidableEq, Repr

/-- Go `type PolyhedraSigner struct`. -/
structure PolyhedraSigner where
  client : Client
  privateKey : PrivateKey
  publicKey : ByteSlice
  deriving DecidableEq, Repr

/-- The collaborators. Each field is what the named Go function answers: a
pair of a possibly nil result and a possibly nil error. -/
structure Env (ε : Type) where
  DialContext : String → Option Client × Option ε
  GenerateKey : Option PrivateKey × Option ε
  FromECDSAPub : ECDSAPublicKey → ByteSlice
  TransactionReceipt : Client → Hash → Option Receipt × Option ε
  BlockByNumber : Client → Int → Option Block × Option ε
  Sign : List Byte → PrivateKey → ByteSlice × Option ε

/-- A request made to a collaborator during a call. -/
inductive Call where
  | TransactionReceipt (c : Client) (txHash : Hash)
  | BlockByNumber (c : Client) (number : Int)
  | Sign (digestHash : List Byte) (prv : PrivateKey)
  deriving DecidableEq, Repr

/-- How a call of `VerifyAndSignTransaction` ends: it returns
`([]byte, []byte, error)` or it aborts with a nil pointer dereference. -/
inductive Outcome (ε : Type) where
  | returned (signedTx : ByteSlice) (publicKey : ByteSlice) (err : Option (GoError ε))
  | panicked
  deriving DecidableEq, Repr

/-- A finished call: the signer as the call leaves it, the collaborator
requests made in order, and the outcome. -/
structure Run (ε : Type) where
  signer : PolyhedraSigner
  calls : List Call
  outcome : Outcome ε
  deriving DecidableEq, Repr

/-! ## Operations -/

/-- Go `NewPolyhedraSigner`. `none` is `log.Fatal` (the process exits); a dial
or a key generation that answers neither a result nor an error is counted
with it, no usable signer being built. -/
def NewPolyhedraSigner {ε : Type} (env : Env ε) (rpc : String) : Option PolyhedraSigner :=
  match env.DialContext rpc with
  | (_, some _) => none
  | (none, none) => none
  | (some client, none) =>
    match env.GenerateKey with
    | (_, some _) => none
    | (none, none) => none
    | (some privateKey, none) =>
      match privateKey.Public with
      | CryptoPublicKey.other => none
      | CryptoPublicKey.ecdsa publicKeyECDSA =>
        some { client := client, privateKey := privateKey,
               publicKey := env.FromECDSAPub publicKeyECDSA }

/-- Go `(*PolyhedraSigner).VerifyAndSignTransaction`. The `signer` argument has
the interface type `types.Signer`; the body never uses it. -/
def VerifyAndSignTransaction {ε σ : Type} (env : Env ε) (s : PolyhedraSigner)
    (txHash : Hash) (_signer : σ) : Run ε :=
  let c1 := Call.TransactionReceipt s.client txHash
  match env.TransactionReceipt s.client txHash with
  | (_, some err) =>
    { signer := s, calls := [c1],
      outcome := Outcome.returned none none (some (GoError.collaborator err)) }
  | (none, none) =>
    { signer := s, calls := [c1],
      outcome := Outcome.returned none none
        (some (GoError.errorsNew "transaction is not yet included in any block")) }
  | (some receipt, none) =>
    let c2 := Call.BlockByNumber s.client SAFE_BLOCK_NUM
    match env.BlockByNumber s.client SAFE_BLOCK_NUM with
    | (_, some _) =>
      { signer := s, calls := [c1, c2],
        outcome := Outcome.returned none none (some (GoError.errorsNew "failed to fetch block")) }
    | (safeBlock, none) =>
      match receipt.BlockNumber with
      | none => { signer := s, calls := [c1, c2], outcome := Outcome.panicked }
      | some blockNumber =>
        let txblockNum := Uint64 blockNumber
        match safeBlock with
        | none => { signer := s, calls := [c1, c2], outcome := Outcome.panicked }
        | some safeBlock =>
          let mostRecentSafeBlockNumber := Uint64 safeBlock.Number
          if txblockNum > mostRecentSafeBlockNumber then
            { signer := s, calls := [c1, c2],
              outcome := Outcome.returned none none
                (some (GoError.errorsNew "transaction is not yet safe")) }
          else
            let c3 := Call.Sign txHash.Bytes s.privateKey
            match env.Sign txHash.Bytes s.privateKey with
            | (_, some _) =>
              { signer := s, calls := [c1, c2, c3],
                outcome := Outcome.returned none none
                  (some (GoError.errorsNew "failed to sign transaction")) }
            | (signedTx, none) =>
              { signer := s, calls := [c1, c2, c3],
                outcome := Outcome.returned signedTx s.publicKey none }

/-! ## Vocabulary of the properties -/

/-- The error of line 71. -/
def notSafeError {ε : Type} : GoError ε := GoError.errorsNew "transaction is not yet safe"

/-- The error of line 60. -/
def notIncludedError {ε : Type} : GoError ε :=
  GoError.errorsNew "transaction is not yet included in any block"

/-- The error of line 66. -/
def fetchBlockError {ε : Type} : GoError ε := GoError.errorsNew "failed to fetch block"

/-- The error of line 77. -/
def signingError {ε : Type} : GoError ε := GoError.errorsNew "failed to sign transaction"

/-- Whether a request is one to the signing primitive. -/
def Call.isSign : Call → Bool
  | Call.Sign _ _ => true
  | _ => false

/-- Whether a request is a block lookup. -/
def Call.isBlockByNumber : Call → Bool
  | Call.BlockByNumber _ _ => true
  | _ => false

/-- The call got as far as the signing primitive. -/
def Run.reachedSigning {ε : Type} (r : Run ε) : Bool := r.calls.any Call.isSign

/-- The call ended with the not-safe refusal of line 71. -/
def Run.refusedNotSafe {ε : Type} (r : Run ε) : Prop :=
  r.outcome = Outcome.returned none none (some notSafeError)

/-- The transaction was judged safe: no not-safe refusal, and the signing
primitive was reached. -/
def Run.judgedSafe {ε : Type} (r : Run ε) : Prop :=
  ¬ r.refusedNotSafe ∧ r.reachedSigning = true

/-- What the call returns once the signing primitive has answered (lines 75 to 80). -/
def signingOutcome {ε : Type} (env : Env ε) (s : PolyhedraSigner) (txHash : Hash) : Outcome ε :=
  match env.Sign txHash.Bytes s.privateKey with
  | (_, some _) => Outcome.returned none none (some signingError)
  | (signedTx, none) => Outcome.returned signedTx s.publicKey none

/-- The outcome is a failure of the chain RPC as the code reports one: an error
handed over by the client (line 57) or the fetch failure of line 66. -/
def Outcome.rpcError {ε : Type} : Outcome ε → Bool
  | Outcome.returned _ _ (some (GoError.collaborator _)) => true
  | Outcome.returned _ _ (some (GoError.errorsNew text)) => text == "failed to fetch block"
  | _ => false

instance {ε : Type} [DecidableEq ε] (r : Run ε) : Decidable r.refusedNotSafe :=
  inferInstanceAs (Decidable (r.outcome = Outcome.returned none none (some notSafeError)))

instance {ε : Type} [DecidableEq ε] (r : Run ε) : Decidable r.judgedSafe :=
  inferInstanceAs (Decidable (¬ r.refusedNotSafe ∧ r.reachedSigning = true))

/-! ## Concrete collaborators used to evaluate the model -/

/-- The hash whose 32 bytes all equal `b`. -/
def hashOf (b : Byte) : Hash := ⟨List.replicate 32 b, List.length_replicate 32 b⟩

/-- A key pair with small numbers. -/
def demoKey : PrivateKey := { PublicKey := { X := 5, Y := 7 }, D := 11 }

/-- A signer holding `demoKey` and the bytes `04 05 07` as its public key. -/
def demoSigner : PolyhedraSigner :=
  { client := { rawurl := "http://localhost:8545" }, privateKey := demoKey,
    publicKey := some [4, 5, 7] }

/-- Collaborators that give the same answers whatever they are asked. Errors are texts. -/
def fixedEnv (receipt : Option Receipt × Option String) (block : Option Block × Option String)
    (sig : ByteSlice × Option String) : Env String :=
  { DialContext := fun rpc => (some { rawurl := rpc }, none)
    GenerateKey := (some demoKey, none)
    FromECDSAPub := fun k => some [4, Fin.ofNat k.X.natAbs, Fin.ofNat k.Y.natAbs]
    TransactionReceipt := fun _ _ => receipt
    BlockByNumber := fun _ _ => block
    Sign := fun _ _ => sig }

/-- A receipt lookup that finds the transaction in block `B`. -/
def minedAt (B : Int) : Option Receipt × Option String := (some { BlockNumber := some B }, none)

/-- A block lookup that answers with block `S`. -/
def blockAt (S : Int) : Option Block × Option String := (some { header := { Number := S } }, none)

/-- A signing primitive that succeeds with the bytes `01 02 03`. -/
def signsOk : ByteSlice × Option String := (some [1, 2, 3], none)

/-- A signing primitive that fails. -/
def signsNot : ByteSlice × Option String := (none, some "invalid private key")

/-- A chain whose head is block `H`, with the transaction mined in block `B`:
a negative block number `n` is resolved to block `H + n`, any other number to
itself. -/
def headEnv (H B : Int) : Env String :=
  { fixedEnv (minedAt B) (blockAt 0) signsOk with
    BlockByNumber := fun _ n => if n < 0 then blockAt (H + n) else blockAt n }

/-- The chain of `headEnv` with a signing primitive that fails. -/
def headEnvSignsNot (H B : Int) : Env String :=
  { headEnv H B with Sign := fun _ _ => signsNot }

/-! ## The branches of `VerifyAndSignTransaction`, one lemma each -/

section Branches

variable {ε σ : Type}

theorem run_of_receipt_error (env : Env ε) (s : PolyhedraSigner) (txHash : Hash) (signer : σ)
    (r : Option Receipt) (e : ε) (hr : env.TransactionReceipt s.client txHash = (r, some e)) :
    VerifyAndSignTransaction env s txHash signer =
      { signer := s, calls := [Call.TransactionReceipt s.client txHash],
        outcome := Outcome.returned none none (some (GoError.collaborator e)) } := by
  simp only [VerifyAndSignTransaction, hr]

theorem run_of_no_receipt (env : Env ε) (s : PolyhedraSigner) (txHash : Hash) (signer : σ)
    (hr : env.TransactionReceipt s.client txHash = (none, none)) :
    VerifyAndSignTransaction env s txHash signer =
      { signer := s, calls := [Call.TransactionReceipt s.client txHash],
        outcome := Outcome.returned none none (some notIncludedError) } := by
  simp only [VerifyAndSignTransaction, hr, notIncludedError]

theorem run_of_block_error (env : Env ε) (s : PolyhedraSigner) (txHash : Hash) (signer : σ)
    (receipt : Receipt) (b : Option Block) (e : ε)
    (hr : env.TransactionReceipt s.client txHash = (some receipt, none))
    (hb : env.BlockByNumber s.client SAFE_BLOCK_NUM = (b, some e)) :
    VerifyAndSignTransaction env s txHash signer =
      { signer := s,
        calls := [Call.TransactionReceipt s.client txHash,
                  Call.BlockByNumber s.client SAFE_BLOCK_NUM],
        outcome := Outcome.returned none none (some fetchBlockError) } := by
  simp only [VerifyAndSignTransaction, hr, hb, fetchBlockError]

theorem run_of_nil_blockNumber (env : Env ε) (s : PolyhedraSigner) (txHash : Hash) (signer : σ)
    (b : Option Block)
    (hr : env.TransactionReceipt s.client txHash = (some { BlockNumber := none }, none))
    (hb : env.BlockByNumber s.client SAFE_BLOCK_NUM = (b, none)) :
    VerifyAndSignTransaction env s txHash signer =
      { signer := s,
        calls := [Call.TransactionReceipt s.client txHash,
                  Call.BlockByNumber s.client SAFE_BLOCK_NUM],
        outcome := Outcome.panicked } := by
  simp only [VerifyAndSignTransaction, hr, hb]

theorem run_of_refused (env : Env ε) (s : PolyhedraSigner) (txHash : Hash) (signer : σ)
    (B : Int) (blk : Block)
    (hr : env.TransactionReceipt s.client txHash = (some { BlockNumber := some B }, none))
    (hb : env.BlockByNumber s.client SAFE_BLOCK_NUM = (some blk, none))
    (hgt : Uint64 B > Uint64 blk.Number) :
    VerifyAndSignTransaction env s txHash signer =
      { signer := s,
        calls := [Call.TransactionReceipt s.client txHash,
                  Call.BlockByNumber s.client SAFE_BLOCK_NUM],
        outcome := Outcome.returned none none (some notSafeError) } := by
  simp only [VerifyAndSignTransaction, hr, hb, notSafeError, if_pos hgt]

theorem run_of_verified (env : Env ε) (s : PolyhedraSigner) (txHash : Hash) (signer : σ)
    (B : Int) (blk : Block)
    (hr : env.TransactionReceipt s.client txHash = (some { BlockNumber := some B }, none))
    (hb : env.BlockByNumber s.client SAFE_BLOCK_NUM = (some blk, none))
    (hle : Uint64 B ≤ Uint64 blk.Number) :
    VerifyAndSignTransaction env s txHash signer =
      { signer := s,
        calls := [Call.TransactionReceipt s.client txHash,
                  Call.BlockByNumber s.client SAFE_BLOCK_NUM,
                  Call.Sign txHash.Bytes s.privateKey],
        outcome := signingOutcome env s txHash } := by
  have hgt : ¬ Uint64 B > Uint64 blk.Number := Nat.not_lt.mpr hle
  simp only [VerifyAndSignTransaction, hr, hb, if_neg hgt, signingOutcome, signingError]
  split <;> rfl

end Branches

/-! ## Facts shared by the properties -/

section Shared

variable {ε σ : Type}

theorem Uint64_of_range (x : Int) (h0 : 0 ≤ x) (h1 : x < 2 ^ 64) : ((Uint64 x : Nat) : Int) = x := by
  unfold Uint64
  have hx : ((x.natAbs : Nat) : Int) = x := Int.natAbs_of_nonneg h0
  have hlt : x.natAbs < 2 ^ 64 := by
    have : ((x.natAbs : Nat) : Int) < ((2 ^ 64 : Nat) : Int) := by rw [hx]; exact_mod_cast h1
    exact_mod_cast this
  rw [Nat.mod_eq_of_lt hlt, hx]

theorem Uint64_le_iff_of_range (B S : Int) (hB0 : 0 ≤ B) (hB1 : B < 2 ^ 64) (hS0 : 0 ≤ S)
    (hS1 : S < 2 ^ 64) : Uint64 B ≤ Uint64 S ↔ B ≤ S := by
  have hB := Uint64_of_range B hB0 hB1
  have hS := Uint64_of_range S hS0 hS1
  constructor
  · intro h
    have : ((Uint64 B : Nat) : Int) ≤ ((Uint64 S : Nat) : Int) := by exact_mod_cast h
    rwa [hB, hS] at this
  · intro h
    have : ((Uint64 B : Nat) : Int) ≤ ((Uint64 S : Nat) : Int) := by rw [hB, hS]; exact h
    exact_mod_cast this

theorem signingOutcome_ne_notSafe (env : Env ε) (s : PolyhedraSigner) (txHash : Hash) :
    signingOutcome env s txHash ≠ Outcome.returned none none (some notSafeError) := by
  unfold signingOutcome
  split
  · intro h
    simp only [signingError, notSafeError, Outcome.returned.injEq, Option.some.injEq,
      GoError.errorsNew.injEq, true_and] at h
    exact absurd h (by decide)
  · intro h
    simp only [Outcome.returned.injEq] at h
    exact absurd h.2.2 (by simp)

theorem signingOutcome_rpcError (env : Env ε) (s : PolyhedraSigner) (txHash : Hash) :
    (signingOutcome env s txHash).rpcError = false := by
  unfold signingOutcome
  split
  · simp only [signingError, Outcome.rpcError]
    decide
  · rfl

theorem judgedSafe_iff (env : Env ε) (s : PolyhedraSigner) (txHash : Hash) (signer : σ)
    (B : Int) (blk : Block)
    (hr : env.TransactionReceipt s.client txHash = (some { BlockNumber := some B }, none))
    (hb : env.BlockByNumber s.client SAFE_BLOCK_NUM = (some blk, none)) :
    (VerifyAndSignTransaction env s txHash signer).judgedSafe ↔ Uint64 B ≤ Uint64 blk.Number := by
  by_cases hle : Uint64 B ≤ Uint64 blk.Number
  · have hrun := run_of_verified env s txHash signer B blk hr hb hle
    simp only [hle, iff_true, Run.judgedSafe, Run.refusedNotSafe, Run.reachedSigning, hrun]
    exact ⟨signingOutcome_ne_notSafe env s txHash, by simp [Call.isSign]⟩
  · have hrun := run_of_refused env s txHash signer B blk hr hb (Nat.lt_of_not_le hle)
    simp only [hle, iff_false, Run.judgedSafe, Run.refusedNotSafe, hrun]
    simp

theorem signingOutcome_cases (env : Env ε) (s : PolyhedraSigner) (txHash : Hash) :
    signingOutcome env s txHash = Outcome.returned none none (some signingError) ∨
    ∃ signedTx, signingOutcome env s txHash = Outcome.returned signedTx s.publicKey none := by
  unfold signingOutcome
  split
  · exact Or.inl rfl
  · exact Or.inr ⟨_, rfl⟩

/-- Every call leaves the signer as it found it, and ends in one of three
ways: an error with nil results, an abort, or a signature with the stored
public key and a nil error. -/
theorem run_cases (env : Env ε) (s : PolyhedraSigner) (txHash : Hash) (signer : σ) :
    (VerifyAndSignTransaction env s txHash signer).signer = s ∧
    ((∃ err, (VerifyAndSignTransaction env s txHash signer).outcome =
        Outcome.returned none none (some err)) ∨
     (VerifyAndSignTransaction env s txHash signer).outcome = Outcome.panicked ∨
     (∃ signedTx, (VerifyAndSignTransaction env s txHash signer).outcome =
        Outcome.returned signedTx s.publicKey none)) := by
  rcases hr : env.TransactionReceipt s.client txHash with ⟨r, e⟩
  cases e with
  | some e =>
    rw [run_of_receipt_error env s txHash signer r e hr]
    exact ⟨rfl, Or.inl ⟨_, rfl⟩⟩
  | none =>
    cases r with
    | none =>
      rw [run_of_no_receipt env s txHash signer hr]
      exact ⟨rfl, Or.inl ⟨_, rfl⟩⟩
    | some receipt =>
      rcases hb : env.BlockByNumber s.client SAFE_BLOCK_NUM with ⟨b, e2⟩
      cases e2 with
      | some e2 =>
        rw [run_of_block_error env s txHash signer receipt b e2 hr hb]
        exact ⟨rfl, Or.inl ⟨_, rfl⟩⟩
      | none =>
        cases receipt with
        | mk bn =>
          cases bn with
          | none =>
            rw [run_of_nil_blockNumber env s txHash signer b hr hb]
            exact ⟨rfl, Or.inr (Or.inl rfl)⟩
          | some B =>
            cases b with
            | none =>
              have hrun : VerifyAndSignTransaction env s txHash signer =
                  { signer := s,
                    calls := [Call.TransactionReceipt s.client txHash,
                              Call.BlockByNumber s.client SAFE_BLOCK_NUM],
                    outcome := Outcome.panicked } := by
                simp only [VerifyAndSignTransaction, hr, hb]
              rw [hrun]
              exact ⟨rfl, Or.inr (Or.inl rfl)⟩
            | some blk =>
              by_cases hle : Uint64 B ≤ Uint64 blk.Number
              · rw [run_of_verified env s txHash signer B blk hr hb hle]
                refine ⟨rfl, ?_⟩
                rcases signingOutcome_cases env s txHash with h | ⟨sig, h⟩
                · exact Or.inl ⟨_, h⟩
                · exact Or.inr (Or.inr ⟨sig, h⟩)
              · rw [run_of_refused env s txHash signer B blk hr hb (Nat.lt_of_not_le hle)]
                exact ⟨rfl, Or.inl ⟨_, rfl⟩⟩

/-- The requests of a call are the receipt lookup, then possibly the lookup of
block `SAFE_BLOCK_NUM`, then possibly the signing primitive. -/
theorem calls_cases (env : Env ε) (s : PolyhedraSigner) (txHash : Hash) (signer : σ) :
    (VerifyAndSignTransaction env s txHash signer).calls =
        [Call.TransactionReceipt s.client txHash] ∨
    (VerifyAndSignTransaction env s txHash signer).calls =
        [Call.TransactionReceipt s.client txHash, Call.BlockByNumber s.client SAFE_BLOCK_NUM] ∨
    (VerifyAndSignTransaction env s txHash signer).calls =
        [Call.TransactionReceipt s.client txHash, Call.BlockByNumber s.client SAFE_BLOCK_NUM,
         Call.Sign txHash.Bytes s.privateKey] := by
  rcases hr : env.TransactionReceipt s.client txHash with ⟨r, e⟩
  cases e with
  | some e =>
    rw [run_of_receipt_error env s txHash signer r e hr]
    exact Or.inl rfl
  | none =>
    cases r with
    | none =>
      rw [run_of_no_receipt env s txHash signer hr]
      exact Or.inl rfl
    | some receipt =>
      rcases hb : env.BlockByNumber s.client SAFE_BLOCK_NUM with ⟨b, e2⟩
      cases e2 with
      | some e2 =>
        rw [run_of_block_error env s txHash signer receipt b e2 hr hb]
        exact Or.inr (Or.inl rfl)
      | none =>
        cases receipt with
        | mk bn =>
          cases bn with
          | none =>
            rw [run_of_nil_blockNumber env s txHash signer b hr hb]
            exact Or.inr (Or.inl rfl)
          | some B =>
            cases b with
            | none =>
              have hrun : VerifyAndSignTransaction env s txHash signer =
                  { signer := s,
                    calls := [Call.TransactionReceipt s.client txHash,
                              Call.BlockByNumber s.client SAFE_BLOCK_NUM],
                    outcome := Outcome.panicked } := by
                simp only [VerifyAndSignTransaction, hr, hb]
              rw [hrun]
              exact Or.inr (Or.inl rfl)
            | some blk =>
              by_cases hle : Uint64 B ≤ Uint64 blk.Number
              · rw [run_of_verified env s txHash signer B blk hr hb hle]
                exact Or.inr (Or.inr rfl)
              · rw [run_of_refused env s txHash signer B blk hr hb (Nat.lt_of_not_le hle)]
                exact Or.inr (Or.inl rfl)

end Shared

/-! ## The properties -/

/-- C1, as the code has it: when the receipt is present at block `B`, the
safe-block lookup answers block `S`, and both numbers lie in the range of an
unsigned 64-bit integer, the transaction is judged safe (no not-safe refusal,
signing reached) exactly when `B ≤ S`. -/
theorem safe_iff_le_within_uint64 {ε σ : Type} (env : Env ε) (s : PolyhedraSigner)
    (txHash : Hash) (signer : σ) (B S : Int)
    (hB0 : 0 ≤ B) (hB1 : B < 2 ^ 64) (hS0 : 0 ≤ S) (hS1 : S < 2 ^ 64)
    (hr : env.TransactionReceipt s.client txHash = (some { BlockNumber := some B }, none))
    (hb : env.BlockByNumber s.client SAFE_BLOCK_NUM = (some { header := { Number := S } }, none)) :
    (VerifyAndSignTransaction env s txHash signer).judgedSafe ↔ B ≤ S := by
  rw [judgedSafe_iff env s txHash signer B _ hr hb]
  exact Uint64_le_iff_of_range B S hB0 hB1 hS0 hS1

/-- C1 at the boundary: inclusion block 96 against safe block 96 is judged safe. -/
theorem safe_iff_le_within_uint64_witness :
    (VerifyAndSignTransaction (fixedEnv (minedAt 96) (blockAt 96) signsOk) demoSigner
      (hashOf 1) ()).judgedSafe ↔ (96 : Int) ≤ 96 :=
  safe_iff_le_within_uint64 (fixedEnv (minedAt 96) (blockAt 96) signsOk) demoSigner
    (hashOf 1) () 96 96 (by decide) (by decide) (by decide) (by decide) rfl rfl

/-- C1 fails for arbitrary non-negative integers: with inclusion block `2^64`
and safe block `0` both numbers are non-negative and `2^64 ≤ 0` is false, yet
the transaction is judged safe and the signature is returned. -/
theorem safe_iff_le_fails_beyond_uint64 :
    (0 : Int) ≤ 2 ^ 64 ∧ (0 : Int) ≤ 0 ∧ ¬ ((2 : Int) ^ 64 ≤ 0) ∧
    (VerifyAndSignTransaction (fixedEnv (minedAt (2 ^ 64)) (blockAt 0) signsOk) demoSigner
      (hashOf 1) ()).judgedSafe ∧
    (VerifyAndSignTransaction (fixedEnv (minedAt (2 ^ 64)) (blockAt 0) signsOk) demoSigner
      (hashOf 1) ()).outcome = Outcome.returned (some [1, 2, 3]) (some [4, 5, 7]) none := by
  decide

/-- C2: when the receipt lookup succeeds with no receipt, the call returns the
not-included error with a nil signature and a nil public key, and the receipt
lookup is the only request it made, for every block lookup and signing
primitive. -/
theorem no_receipt_not_included {ε σ : Type} (env : Env ε) (s : PolyhedraSigner)
    (txHash : Hash) (signer : σ)
    (hr : env.TransactionReceipt s.client txHash = (none, none)) :
    (VerifyAndSignTransaction env s txHash signer).outcome =
        Outcome.returned none none
          (some (GoError.errorsNew "transaction is not yet included in any block")) ∧
    (VerifyAndSignTransaction env s txHash signer).calls =
        [Call.TransactionReceipt s.client txHash] := by
  rw [run_of_no_receipt env s txHash signer hr]
  exact ⟨rfl, rfl⟩

/-- C2 on a chain that does not know the hash, though block 96 is safe and signing would succeed. -/
theorem no_receipt_not_included_witness :
    (VerifyAndSignTransaction (fixedEnv (none, none) (blockAt 96) signsOk) demoSigner
      (hashOf 2) ()).outcome =
        Outcome.returned none none
          (some (GoError.errorsNew "transaction is not yet included in any block")) ∧
    (VerifyAndSignTransaction (fixedEnv (none, none) (blockAt 96) signsOk) demoSigner
      (hashOf 2) ()).calls = [Call.TransactionReceipt demoSigner.client (hashOf 2)] :=
  no_receipt_not_included (fixedEnv (none, none) (blockAt 96) signsOk) demoSigner (hashOf 2) () rfl

/-- C3: whenever the call returns a non-nil error, the returned signature and
the returned public key are both nil. -/
theorem error_implies_no_signature {ε σ : Type} (env : Env ε) (s : PolyhedraSigner)
    (txHash : Hash) (signer : σ) (signedTx publicKey : ByteSlice) (err : GoError ε)
    (h : (VerifyAndSignTransaction env s txHash signer).outcome =
      Outcome.returned signedTx publicKey (some err)) :
    signedTx = none ∧ publicKey = none := by
  rcases (run_cases env s txHash signer).2 with ⟨e, he⟩ | hp | ⟨sig, hs⟩
  · rw [he] at h
    simp only [Outcome.returned.injEq] at h
    exact ⟨h.1.symm, h.2.1.symm⟩
  · rw [hp] at h
    exact Outcome.noConfusion h
  · rw [hs] at h
    simp only [Outcome.returned.injEq, reduceCtorEq, and_false] at h

/-- C3 on a call refused as not yet safe (block 99 against safe block 96). -/
theorem error_implies_no_signature_witness :
    (VerifyAndSignTransaction (fixedEnv (minedAt 99) (blockAt 96) signsOk) demoSigner
      (hashOf 3) ()).outcome = Outcome.returned none none (some notSafeError) ∧
    ((none : ByteSlice) = none ∧ (none : ByteSlice) = none) :=
  ⟨rfl, error_implies_no_signature (fixedEnv (minedAt 99) (blockAt 96) signsOk) demoSigner
    (hashOf 3) () none none notSafeError rfl⟩

/-- C4, the code at the failing input: a receipt whose `BlockNumber` is nil,
with a safe-block lookup that succeeds, makes the call abort on the nil
dereference of line 68 instead of returning an error. -/
theorem nil_blockNumber_panics :
    (VerifyAndSignTransaction
      (fixedEnv (some { BlockNumber := none }, none) (blockAt 96) signsOk) demoSigner
      (hashOf 4) ()).outcome = Outcome.panicked := by
  decide

/-- C5, as the code has it: block number zero is not rejected. With the
receipt at block `B` and the safe block `S`, both non-negative, `B` below
`2^64`, and one of the two equal to zero, the call does not end in an RPC
error: zero is compared like any other block number, the transaction is judged
safe exactly when `B ≤ S`, and a receipt at block 0 is always handed to the
signing primitive, whose result the call returns. -/
theorem zero_blocks_compared_as_valid {ε σ : Type} (env : Env ε) (s : PolyhedraSigner)
    (txHash : Hash) (signer : σ) (B S : Int)
    (hB0 : 0 ≤ B) (hB1 : B < 2 ^ 64) (hS0 : 0 ≤ S) (hz : B = 0 ∨ S = 0)
    (hr : env.TransactionReceipt s.client txHash = (some { BlockNumber := some B }, none))
    (hb : env.BlockByNumber s.client SAFE_BLOCK_NUM = (some { header := { Number := S } }, none)) :
    (VerifyAndSignTransaction env s txHash signer).outcome.rpcError = false ∧
    ((VerifyAndSignTransaction env s txHash signer).judgedSafe ↔ B ≤ S) ∧
    (B = 0 →
      (VerifyAndSignTransaction env s txHash signer).judgedSafe ∧
      (VerifyAndSignTransaction env s txHash signer).calls =
        [Call.TransactionReceipt s.client txHash, Call.BlockByNumber s.client SAFE_BLOCK_NUM,
         Call.Sign txHash.Bytes s.privateKey] ∧
      (VerifyAndSignTransaction env s txHash signer).outcome = signingOutcome env s txHash) := by
  have hiff := judgedSafe_iff env s txHash signer B _ hr hb
  have hzero : Uint64 0 = 0 := rfl
  refine ⟨?_, ?_, ?_⟩
  · by_cases hle : Uint64 B ≤ Uint64 (Block.Number { header := { Number := S } })
    · rw [run_of_verified env s txHash signer B _ hr hb hle]
      exact signingOutcome_rpcError env s txHash
    · rw [run_of_refused env s txHash signer B _ hr hb (Nat.lt_of_not_le hle)]
      simp only [notSafeError, Outcome.rpcError]
      decide
  · rw [hiff]
    simp only [Block.Number]
    rcases hz with h0 | h0
    · subst h0
      rw [hzero]
      exact ⟨fun _ => hS0, fun _ => Nat.zero_le _⟩
    · subst h0
      rw [Uint64_le_iff_of_range B 0 hB0 hB1 (le_refl 0) (by decide)]
  · intro h0
    subst h0
    have hle : Uint64 0 ≤ Uint64 (Block.Number { header := { Number := S } }) := by
      rw [hzero]
      exact Nat.zero_le _
    refine ⟨hiff.mpr hle, ?_, ?_⟩
    · rw [run_of_verified env s txHash signer 0 _ hr hb hle]
    · rw [run_of_verified env s txHash signer 0 _ hr hb hle]

/-- C5 on a receipt at block 0 against safe block 96: no RPC error, judged
safe, and the signature is returned. -/
theorem zero_blocks_compared_as_valid_witness :
    (VerifyAndSignTransaction (fixedEnv (minedAt 0) (blockAt 96) signsOk) demoSigner
      (hashOf 5) ()).outcome.rpcError = false ∧
    ((VerifyAndSignTransaction (fixedEnv (minedAt 0) (blockAt 96) signsOk) demoSigner
      (hashOf 5) ()).judgedSafe ↔ (0 : Int) ≤ 96) ∧
    (VerifyAndSignTransaction (fixedEnv (minedAt 0) (blockAt 96) signsOk) demoSigner
      (hashOf 5) ()).outcome = Outcome.returned (some [1, 2, 3]) (some [4, 5, 7]) none :=
  have h := zero_blocks_compared_as_valid
    (fixedEnv (minedAt 0) (blockAt 96) signsOk) demoSigner (hashOf 5) () 0 96
    (by decide) (by decide) (by decide) (Or.inl rfl) rfl rfl
  ⟨h.1, h.2.1, (h.2.2 rfl).2.2⟩

/-- C5 fails at zero: a receipt at block 0 against a safe block 0 is not
rejected; the call is judged safe and returns the signature and the public
key with a nil error. -/
theorem block_zero_is_signed :
    (0 : Int) ≤ 0 ∧
    (VerifyAndSignTransaction (fixedEnv (minedAt 0) (blockAt 0) signsOk) demoSigner
      (hashOf 5) ()).judgedSafe ∧
    (VerifyAndSignTransaction (fixedEnv (minedAt 0) (blockAt 0) signsOk) demoSigner
      (hashOf 5) ()).outcome.rpcError = false ∧
    (VerifyAndSignTransaction (fixedEnv (minedAt 0) (blockAt 0) signsOk) demoSigner
      (hashOf 5) ()).outcome = Outcome.returned (some [1, 2, 3]) (some [4, 5, 7]) none := by
  decide

/-- C6, as the code has it: when the receipt is present and the safe-block
lookup fails with any error `e`, the call returns the fixed error
`failed to fetch block`, which does not carry `e`, with a nil signature and a
nil public key, and the signing primitive is not asked. -/
theorem block_error_replaced {ε σ : Type} (env : Env ε) (s : PolyhedraSigner)
    (txHash : Hash) (signer : σ) (receipt : Receipt) (b : Option Block) (e : ε)
    (hr : env.TransactionReceipt s.client txHash = (some receipt, none))
    (hb : env.BlockByNumber s.client SAFE_BLOCK_NUM = (b, some e)) :
    (VerifyAndSignTransaction env s txHash signer).outcome =
        Outcome.returned none none (some (GoError.errorsNew "failed to fetch block")) ∧
    (VerifyAndSignTransaction env s txHash signer).calls =
        [Call.TransactionReceipt s.client txHash, Call.BlockByNumber s.client SAFE_BLOCK_NUM] := by
  rw [run_of_block_error env s txHash signer receipt b e hr hb]
  exact ⟨rfl, rfl⟩

/-- C6 on an endpoint that refuses the block lookup. -/
theorem block_error_replaced_witness :
    (VerifyAndSignTransaction (fixedEnv (minedAt 90) (none, some "connection refused") signsOk)
      demoSigner (hashOf 6) ()).outcome =
        Outcome.returned none none (some (GoError.errorsNew "failed to fetch block")) ∧
    (VerifyAndSignTransaction (fixedEnv (minedAt 90) (none, some "connection refused") signsOk)
      demoSigner (hashOf 6) ()).calls =
        [Call.TransactionReceipt demoSigner.client (hashOf 6),
         Call.BlockByNumber demoSigner.client SAFE_BLOCK_NUM] :=
  block_error_replaced (fixedEnv (minedAt 90) (none, some "connection refused") signsOk)
    demoSigner (hashOf 6) () { BlockNumber := some 90 } none "connection refused" rfl rfl

/-- C6 fails: two different lookup errors, `connection refused` and
`timeout`, give the very same returned error, which is neither of them. -/
theorem block_error_not_propagated :
    ("connection refused" : String) ≠ "timeout" ∧
    (VerifyAndSignTransaction (fixedEnv (minedAt 90) (none, some "connection refused") signsOk)
      demoSigner (hashOf 6) ()).outcome =
    (VerifyAndSignTransaction (fixedEnv (minedAt 90) (none, some "timeout") signsOk)
      demoSigner (hashOf 6) ()).outcome ∧
    (VerifyAndSignTransaction (fixedEnv (minedAt 90) (none, some "connection refused") signsOk)
      demoSigner (hashOf 6) ()).outcome ≠
        Outcome.returned none none (some (GoError.collaborator "connection refused")) := by
  decide

/-- C7: when the receipt lookup fails with error `e`, the call returns exactly
`e` with a nil signature and a nil public key, and the receipt lookup is the
only request it made. -/
theorem receipt_error_propagated {ε σ : Type} (env : Env ε) (s : PolyhedraSigner)
    (txHash : Hash) (signer : σ) (r : Option Receipt) (e : ε)
    (hr : env.TransactionReceipt s.client txHash = (r, some e)) :
    (VerifyAndSignTransaction env s txHash signer).outcome =
        Outcome.returned none none (some (GoError.collaborator e)) ∧
    (VerifyAndSignTransaction env s txHash signer).calls =
        [Call.TransactionReceipt s.client txHash] := by
  rw [run_of_receipt_error env s txHash signer r e hr]
  exact ⟨rfl, rfl⟩

/-- C7 on an endpoint that cannot be reached. -/
theorem receipt_error_propagated_witness :
    (VerifyAndSignTransaction (fixedEnv (none, some "connection refused") (blockAt 96) signsOk)
      demoSigner (hashOf 7) ()).outcome =
        Outcome.returned none none (some (GoError.collaborator "connection refused")) ∧
    (VerifyAndSignTransaction (fixedEnv (none, some "connection refused") (blockAt 96) signsOk)
      demoSigner (hashOf 7) ()).calls = [Call.TransactionReceipt demoSigner.client (hashOf 7)] :=
  receipt_error_propagated (fixedEnv (none, some "connection refused") (blockAt 96) signsOk)
    demoSigner (hashOf 7) () none "connection refused" rfl

/-- C8, as the code has it: every block lookup a call makes asks for block
number `SAFE_BLOCK_NUM = -4`, whatever the hash, the receipt and the
collaborators. Consequently, with a collaborator that resolves a negative
number `n` to the block at `H + n`, for every head `H` with `4 ≤ H` and
`H - 4 < 2^64` and every inclusion block `B` with `0 ≤ B < 2^64`: when
`B ≤ H - 4` the hash is handed to the signing primitive and its result is
returned; otherwise the call is refused with the not-safe error and nothing is
signed; so, with a signing primitive that succeeds, the transaction is signed
(signature and stored public key returned with a nil error) exactly when
`B ≤ H - 4`. -/
theorem safe_lookup_constant_and_head_offset {ε σ : Type} (env : Env ε) (s : PolyhedraSigner)
    (txHash : Hash) (signer : σ) :
    SAFE_BLOCK_NUM = -4 ∧
    (∀ c ∈ (VerifyAndSignTransaction env s txHash signer).calls,
      c.isBlockByNumber = true → c = Call.BlockByNumber s.client (-4)) ∧
    (∀ H B : Int, 4 ≤ H → H - 4 < 2 ^ 64 → 0 ≤ B → B < 2 ^ 64 →
      (∀ n : Int, n < 0 →
        env.BlockByNumber s.client n = (some { header := { Number := H + n } }, none)) →
      env.TransactionReceipt s.client txHash = (some { BlockNumber := some B }, none) →
      (B ≤ H - 4 →
        (VerifyAndSignTransaction env s txHash signer).calls =
          [Call.TransactionReceipt s.client txHash, Call.BlockByNumber s.client (-4),
           Call.Sign txHash.Bytes s.privateKey] ∧
        (VerifyAndSignTransaction env s txHash signer).outcome = signingOutcome env s txHash) ∧
      (¬ B ≤ H - 4 →
        (VerifyAndSignTransaction env s txHash signer).calls =
          [Call.TransactionReceipt s.client txHash, Call.BlockByNumber s.client (-4)] ∧
        (VerifyAndSignTransaction env s txHash signer).outcome =
          Outcome.returned none none (some (GoError.errorsNew "transaction is not yet safe"))) ∧
      ((env.Sign txHash.Bytes s.privateKey).2 = none →
        ((VerifyAndSignTransaction env s txHash signer).outcome =
            Outcome.returned (env.Sign txHash.Bytes s.privateKey).1 s.publicKey none ↔
          B ≤ H - 4))) := by
  refine ⟨rfl, ?_, ?_⟩
  · intro c hc hbn
    cases c with
    | TransactionReceipt _ _ => simp [Call.isBlockByNumber] at hbn
    | Sign _ _ => simp [Call.isBlockByNumber] at hbn
    | BlockByNumber cl n =>
      rcases calls_cases env s txHash signer with h | h | h
      all_goals
        rw [h] at hc
        simp only [List.mem_cons, List.mem_singleton, reduceCtorEq, Call.BlockByNumber.injEq,
          false_or, or_false, List.mem_nil_iff, List.not_mem_nil] at hc
      all_goals
        rw [hc.1, hc.2]
        rfl
  · intro H B h4 hH hB0 hB1 hrel hr
    have hb := hrel SAFE_BLOCK_NUM (by decide)
    have hS : H + SAFE_BLOCK_NUM = H - 4 := by simp only [SAFE_BLOCK_NUM]; ring
    rw [hS] at hb
    have hcmp : Uint64 B ≤ Uint64 (Block.Number { header := { Number := H - 4 } }) ↔ B ≤ H - 4 :=
      Uint64_le_iff_of_range B (H - 4) hB0 hB1 (by linarith) hH
    have hsigned : B ≤ H - 4 →
        VerifyAndSignTransaction env s txHash signer =
          { signer := s,
            calls := [Call.TransactionReceipt s.client txHash,
                      Call.BlockByNumber s.client SAFE_BLOCK_NUM,
                      Call.Sign txHash.Bytes s.privateKey],
            outcome := signingOutcome env s txHash } :=
      fun h => run_of_verified env s txHash signer B _ hr hb (hcmp.mpr h)
    have hrefused : ¬ B ≤ H - 4 →
        VerifyAndSignTransaction env s txHash signer =
          { signer := s,
            calls := [Call.TransactionReceipt s.client txHash,
                      Call.BlockByNumber s.client SAFE_BLOCK_NUM],
            outcome := Outcome.returned none none (some notSafeError) } :=
      fun h => run_of_refused env s txHash signer B _ hr hb
        (Nat.lt_of_not_le (fun hle => h (hcmp.mp hle)))
    refine ⟨?_, ?_, ?_⟩
    · intro h
      rw [hsigned h]
      exact ⟨rfl, rfl⟩
    · intro h
      rw [hrefused h]
      exact ⟨rfl, rfl⟩
    · intro hok
      rcases hs : env.Sign txHash.Bytes s.privateKey with ⟨sig, e⟩
      rw [hs] at hok
      cases hok
      by_cases h : B ≤ H - 4
      · rw [hsigned h]
        simp only [signingOutcome, hs, h]
      · rw [hrefused h]
        simp only [h, iff_false, notSafeError, Outcome.returned.injEq, reduceCtorEq, and_false,
          not_false_eq_true]

/-- C8 at head 100, where the safe reference block is 96: a transaction at
block 90 is signed, a transaction at block 99 is refused with the not-safe
error. -/
theorem safe_lookup_constant_and_head_offset_witness :
    ((VerifyAndSignTransaction (headEnv 100 90) demoSigner (hashOf 8) ()).outcome =
        Outcome.returned (some [1, 2, 3]) (some [4, 5, 7]) none ↔ (90 : Int) ≤ 100 - 4) ∧
    (VerifyAndSignTransaction (headEnv 100 99) demoSigner (hashOf 8) ()).outcome =
      Outcome.returned none none (some (GoError.errorsNew "transaction is not yet safe")) :=
  ⟨((safe_lookup_constant_and_head_offset (headEnv 100 90) demoSigner (hashOf 8) ()).2.2
      100 90 (by decide) (by decide) (by decide) (by decide)
      (fun n hn => by simp [headEnv, blockAt, hn]) rfl).2.2 rfl,
   (((safe_lookup_constant_and_head_offset (headEnv 100 99) demoSigner (hashOf 8) ()).2.2
      100 99 (by decide) (by decide) (by decide) (by decide)
      (fun n hn => by simp [headEnv, blockAt, hn]) rfl).2.1 (by decide)).2⟩

/-- C8 fails as stated. Beyond the unsigned 64-bit range: at head 100 a
transaction at block `2^64 + 90` is not at or below block 96, yet it is
signed; at head `2^64 + 4` a transaction at block 1 is below the safe block
`2^64`, yet it is refused as not safe. With a signing primitive that fails:
at head 100 a transaction at block 90 is at or below block 96, yet no
signature is returned. -/
theorem signed_iff_head_offset_fails :
    ¬ ((2 : Int) ^ 64 + 90 ≤ 100 - 4) ∧
    (VerifyAndSignTransaction (headEnv 100 (2 ^ 64 + 90)) demoSigner (hashOf 8) ()).outcome =
      Outcome.returned (some [1, 2, 3]) (some [4, 5, 7]) none ∧
    ((1 : Int) ≤ (2 ^ 64 + 4) - 4) ∧
    (VerifyAndSignTransaction (headEnv (2 ^ 64 + 4) 1) demoSigner (hashOf 8) ()).outcome =
      Outcome.returned none none (some notSafeError) ∧
    ((90 : Int) ≤ 100 - 4) ∧
    (VerifyAndSignTransaction (headEnvSignsNot 100 90) demoSigner (hashOf 8) ()).outcome =
      Outcome.returned none none (some signingError) := by
  decide

/-- C9: once verification has succeeded (the receipt is present at block
`B`, the safe-block lookup answers block `S`, and the comparison of line 70
finds the inclusion block number at most the safe block number), the call
asks the signing primitive once, on the 32 hash bytes and the private key of
the signer, and returns what it gives: the signature with the stored public
key and a nil error when signing succeeds, the error
`failed to sign transaction` with nil results when it fails. No other error
is possible, and the `signer` argument has no effect. -/
theorem verified_returns_signing_outcome {ε σ : Type} (env : Env ε) (s : PolyhedraSigner)
    (txHash : Hash) (signer : σ) (B S : Int)
    (hr : env.TransactionReceipt s.client txHash = (some { BlockNumber := some B }, none))
    (hb : env.BlockByNumber s.client SAFE_BLOCK_NUM = (some { header := { Number := S } }, none))
    (hle : Uint64 B ≤ Uint64 S) :
    (VerifyAndSignTransaction env s txHash signer).calls =
        [Call.TransactionReceipt s.client txHash, Call.BlockByNumber s.client SAFE_BLOCK_NUM,
         Call.Sign txHash.Bytes s.privateKey] ∧
    txHash.Bytes.length = 32 ∧
    ((env.Sign txHash.Bytes s.privateKey).2 = none →
      (VerifyAndSignTransaction env s txHash signer).outcome =
        Outcome.returned (env.Sign txHash.Bytes s.privateKey).1 s.publicKey none) ∧
    ((env.Sign txHash.Bytes s.privateKey).2 ≠ none →
      (VerifyAndSignTransaction env s txHash signer).outcome =
        Outcome.returned none none (some (GoError.errorsNew "failed to sign transaction"))) ∧
    (VerifyAndSignTransaction env s txHash signer).outcome ≠ Outcome.panicked ∧
    (∀ signedTx publicKey err,
      (VerifyAndSignTransaction env s txHash signer).outcome =
          Outcome.returned signedTx publicKey (some err) →
        err = GoError.errorsNew "failed to sign transaction" ∧
        (env.Sign txHash.Bytes s.privateKey).2 ≠ none) ∧
    (∀ (τ : Type) (other : τ),
      VerifyAndSignTransaction env s txHash other = VerifyAndSignTransaction env s txHash signer) := by
  have hrun : ∀ (τ : Type) (x : τ), VerifyAndSignTransaction env s txHash x = _ :=
    fun τ x => run_of_verified env s txHash x B { header := { Number := S } } hr hb hle
  refine ⟨by rw [hrun σ signer], txHash.property, ?_, ?_, ?_, ?_, ?_⟩
  · intro hn
    rw [hrun σ signer]
    rcases hs : env.Sign txHash.Bytes s.privateKey with ⟨sig, e⟩
    rw [hs] at hn
    cases hn
    simp only [signingOutcome, hs]
  · intro hn
    rw [hrun σ signer]
    rcases hs : env.Sign txHash.Bytes s.privateKey with ⟨sig, e⟩
    rw [hs] at hn
    cases e with
    | none => exact absurd rfl hn
    | some e => simp only [signingOutcome, hs, signingError]
  · rw [hrun σ signer]
    rcases signingOutcome_cases env s txHash with h | ⟨sig, h⟩
    · rw [h]
      exact fun hp => Outcome.noConfusion hp
    · rw [h]
      exact fun hp => Outcome.noConfusion hp
  · intro signedTx publicKey err
    rw [hrun σ signer]
    rcases hs : env.Sign txHash.Bytes s.privateKey with ⟨sig, e⟩
    cases e with
    | none =>
      simp only [signingOutcome, hs]
      intro h
      simp only [Outcome.returned.injEq, reduceCtorEq, and_false] at h
    | some e =>
      simp only [signingOutcome, hs, signingError]
      intro h
      simp only [Outcome.returned.injEq, Option.some.injEq] at h
      exact ⟨h.2.2.symm, by simp⟩
  · intro τ other
    rw [hrun τ other, hrun σ signer]

/-- C9 on block 90 against safe block 96 with a signing primitive that succeeds. -/
theorem verified_returns_signing_outcome_witness :
    Uint64 90 ≤ Uint64 96 ∧
    (VerifyAndSignTransaction (fixedEnv (minedAt 90) (blockAt 96) signsOk) demoSigner
      (hashOf 9) ()).outcome = Outcome.returned (some [1, 2, 3]) (some [4, 5, 7]) none :=
  ⟨by decide,
   (verified_returns_signing_outcome (fixedEnv (minedAt 90) (blockAt 96) signsOk) demoSigner
      (hashOf 9) () 90 96 rfl rfl (by decide)).2.2.1 rfl⟩

/-- C10: a call leaves the client handle, the private key and the public key
bytes of the signer as they were; every successful call returns the stored
public key bytes, so two successful calls, one after the other, on any hashes
and any chain states, return the same bytes; and for a signer built by
`NewPolyhedraSigner` these are the bytes derived from the generated key. -/
theorem signer_state_preserved {ε σ : Type} (env : Env ε) (s : PolyhedraSigner)
    (txHash : Hash) (signer : σ) :
    (VerifyAndSignTransaction env s txHash signer).signer = s ∧
    (∀ signedTx publicKey,
      (VerifyAndSignTransaction env s txHash signer).outcome =
        Outcome.returned signedTx publicKey none → publicKey = s.publicKey) ∧
    (∀ (env2 : Env ε) (txHash2 : Hash) (τ : Type) (signer2 : τ) (sig1 pk1 sig2 pk2 : ByteSlice),
      (VerifyAndSignTransaction env s txHash signer).outcome = Outcome.returned sig1 pk1 none →
      (VerifyAndSignTransaction env2 (VerifyAndSignTransaction env s txHash signer).signer
        txHash2 signer2).outcome = Outcome.returned sig2 pk2 none →
      pk1 = pk2 ∧ pk2 = s.publicKey) ∧
    (∀ (env0 : Env ε) (rpc : String), NewPolyhedraSigner env0 rpc = some s →
      ∃ key, env0.GenerateKey = (some key, none) ∧ s.privateKey = key ∧
        s.publicKey = env0.FromECDSAPub key.PublicKey) := by
  have hpk : ∀ (e : Env ε) (h : Hash) (τ : Type) (x : τ) (sig pk : ByteSlice),
      (VerifyAndSignTransaction e s h x).outcome = Outcome.returned sig pk none →
      pk = s.publicKey := by
    intro e h τ x sig pk hout
    rcases (run_cases e s h x).2 with ⟨err, he⟩ | hp | ⟨sg, hs⟩
    · rw [he] at hout
      simp only [Outcome.returned.injEq, reduceCtorEq, and_false] at hout
    · rw [hp] at hout
      exact Outcome.noConfusion hout
    · rw [hs] at hout
      simp only [Outcome.returned.injEq] at hout
      exact hout.2.1.symm
  refine ⟨(run_cases env s txHash signer).1, hpk env txHash σ signer, ?_, ?_⟩
  · intro env2 txHash2 τ signer2 sig1 pk1 sig2 pk2 h1 h2
    rw [(run_cases env s txHash signer).1] at h2
    have e1 := hpk env txHash σ signer sig1 pk1 h1
    have e2 := hpk env2 txHash2 τ signer2 sig2 pk2 h2
    exact ⟨e1.trans e2.symm, e2⟩
  · intro env0 rpc hnew
    unfold NewPolyhedraSigner at hnew
    split at hnew
    · exact Option.noConfusion hnew
    · exact Option.noConfusion hnew
    · split at hnew
      · exact Option.noConfusion hnew
      · exact Option.noConfusion hnew
      · rename_i key hkey
        simp only [PrivateKey.Public, Option.some.injEq] at hnew
        subst hnew
        exact ⟨key, hkey, rfl, rfl⟩

/-- C10 on a signer built by `NewPolyhedraSigner`: a call at head 100 for
block 90 and a later call at head 200 for block 150 both succeed and both
return the bytes `04 05 07`. -/
theorem signer_state_preserved_witness :
    NewPolyhedraSigner (headEnv 100 90) "http://localhost:8545" = some demoSigner ∧
    (VerifyAndSignTransaction (headEnv 100 90) demoSigner (hashOf 10) ()).signer = demoSigner ∧
    ((some [4, 5, 7] : ByteSlice) = some [4, 5, 7] ∧
      (some [4, 5, 7] : ByteSlice) = demoSigner.publicKey) :=
  ⟨by decide,
   (signer_state_preserved (headEnv 100 90) demoSigner (hashOf 10) ()).1,
   (signer_state_preserved (headEnv 100 90) demoSigner (hashOf 10) ()).2.2.1
      (headEnv 200 150) (hashOf 11) Unit () (some [1, 2, 3]) (some [4, 5, 7])
      (some [1, 2, 3]) (some [4, 5, 7]) (by decide) (by decide)⟩

end Polyhedra
